import Mathlib

/-!
A shallow embedding of the students-api Go service (cmanish049/students-api-go).

The store layer embeds `internal/storage/sqlite/sqlite.go`: the SQLite table
`students (id INTEGER PRIMARY KEY AUTOINCREMENT, name TEXT NOT NULL,
email TEXT NOT NULL UNIQUE, age INTEGER NOT NULL)` is modelled as a list of
rows together with the next AUTOINCREMENT id, and each of the five store
methods is a pure function from a store state to a result and a store state.
The handler layer embeds the five HTTP handlers of
`internal/http/handlers/student` (src/unnamed/part_000): each handler is a
pure function from the request's path id and decoded body outcome to an HTTP
response and the resulting store state.
-/

/-- A JSON value, the shape of every response body the service writes.
Go's `encoding/json` marshals a nil slice as JSON `null`, which is why
`Json.null` is distinct from `Json.arr []`. -/
inductive Json where
  | null : Json
  | str (s : String) : Json
  | int (n : Int) : Json
  | arr (elems : List Json) : Json
  | obj (fields : List (String × Json)) : Json

/-- One row of the `students` table; mirrors `types.Student`
(Id, Name, Email, Age). -/
structure Student where
  Id : Int
  Name : String
  Email : String
  Age : Int
deriving DecidableEq, Repr

/-- The persistent state owned by the `Sqlite` store: the rows of the
`students` table in insertion order, and the next id the AUTOINCREMENT
column will assign. -/
structure StoreState where
  rows : List Student
  nextId : Int
deriving DecidableEq, Repr

/-- The errors the store layer can return to a handler: the driver's
UNIQUE-constraint failure on the `email` column, and the not-found error
built with `fmt.Errorf("no student found with id %d", id)`. -/
inductive StoreErr where
  | uniqueConstraint (email : String) : StoreErr
  | notFound (id : Int) : StoreErr
deriving DecidableEq, Repr

/-- `err.Error()`: the message a handler renders into its error response. -/
def StoreErr.Error : StoreErr → String
  | .uniqueConstraint _ => "UNIQUE constraint failed: students.email"
  | .notFound id => "no student found with id " ++ toString id

namespace Sqlite

/-- `CreateStudent` (sqlite.go lines 39-57): INSERT INTO students.  The
UNIQUE constraint on `email` rejects the insert when any existing row holds
the same email, leaving the table unchanged; otherwise the new row is
appended with the next AUTOINCREMENT id and that id is returned
(`result.LastInsertId()`). -/
def CreateStudent (s : StoreState) (name email : String) (age : Int) :
    Except StoreErr Int × StoreState :=
  if ∃ r ∈ s.rows, r.Email = email then
    (.error (.uniqueConstraint email), s)
  else
    (.ok s.nextId, ⟨s.rows ++ [⟨s.nextId, name, email, age⟩], s.nextId + 1⟩)

/-- `GetStudentById` (sqlite.go lines 59-82): SELECT ... WHERE id = ? limit 1.
A missing row surfaces `sql.ErrNoRows`, which the method maps to the
not-found error; the table is not modified. -/
def GetStudentById (s : StoreState) (id : Int) :
    Except StoreErr Student × StoreState :=
  match s.rows.find? (fun r => r.Id == id) with
  | some stu => (.ok stu, s)
  | none => (.error (.notFound id), s)

/-- The Go accumulation `students = append(students, student)` on a
`[]types.Student` that starts as the nil slice: `none` models the nil
slice, `some l` a non-nil slice with elements `l`. -/
def appendRow (acc : Option (List Student)) (stu : Student) :
    Option (List Student) :=
  match acc with
  | none => some [stu]
  | some l => some (l ++ [stu])

/-- `GetStudentList` (sqlite.go lines 84-114): SELECT every row, scanning
each into `var students []types.Student` via `append`.  When the table is
empty the loop never runs and the returned slice is still nil (`none`);
the table is not modified and no error is produced on an empty table. -/
def GetStudentList (s : StoreState) :
    Except StoreErr (Option (List Student)) × StoreState :=
  (.ok (s.rows.foldl appendRow none), s)

/-- `UpdateStudent` (sqlite.go lines 116-138): UPDATE ... WHERE id = ?.
When no row matches, `RowsAffected` is 0 and the method returns the
not-found error; when a row matches but another row already holds the new
email, the UNIQUE constraint aborts the statement; otherwise the matching
row's name, email and age are replaced in place. -/
def UpdateStudent (s : StoreState) (id : Int) (name email : String)
    (age : Int) : Except StoreErr Unit × StoreState :=
  if ∃ r ∈ s.rows, r.Id = id then
    if ∃ r ∈ s.rows, r.Id ≠ id ∧ r.Email = email then
      (.error (.uniqueConstraint email), s)
    else
      (.ok (),
        ⟨s.rows.map (fun r => if r.Id = id then ⟨r.Id, name, email, age⟩ else r),
          s.nextId⟩)
  else (.error (.notFound id), s)

/-- `DeleteStudent` (sqlite.go lines 140-162): DELETE ... WHERE id = ?.
When no row matches, `RowsAffected` is 0 and the method returns the
not-found error; otherwise the matching row is removed.  AUTOINCREMENT
means the next id is never reused after a delete. -/
def DeleteStudent (s : StoreState) (id : Int) :
    Except StoreErr Unit × StoreState :=
  if ∃ r ∈ s.rows, r.Id = id then
    (.ok (), ⟨s.rows.filter (fun r => r.Id != id), s.nextId⟩)
  else (.error (.notFound id), s)

end Sqlite

/-- `strconv.ParseInt(id, 10, 64)`: an optional leading sign followed by at
least one decimal digit, with the signed value required to fit in 64 bits;
anything else is an error (`none`). -/
def parseInt64 (s : String) : Option Int :=
  match s.data with
  | [] => none
  | c :: rest =>
    let neg := c = '-'
    let digits := if c = '-' ∨ c = '+' then rest else c :: rest
    if digits = [] then none
    else if digits.all (fun d => '0' ≤ d ∧ d ≤ '9') then
      let mag : Int := digits.foldl (fun acc d => acc * 10 + ((d.toNat : Int) - 48)) 0
      let v : Int := if neg then -mag else mag
      if -(2 ^ 63) ≤ v ∧ v ≤ 2 ^ 63 - 1 then some v else none
    else none

/-- The flat JSON object a `types.Student` marshals to.
Modelled from the spec: `internal/types` is not in src/; the spec says
request/response bodies are flat JSON objects matching the Student shape
(id, name, email, age). -/
def encodeStudent (stu : Student) : Json :=
  .obj [("id", .int stu.Id), ("name", .str stu.Name),
        ("email", .str stu.Email), ("age", .int stu.Age)]

/-- The JSON a `[]types.Student` marshals to: Go's `encoding/json` writes a
nil slice as `null` and a non-nil slice as an array. -/
def encodeStudentSlice (slice : Option (List Student)) : Json :=
  match slice with
  | none => .null
  | some l => .arr (l.map encodeStudent)

/-- Modelled from the spec: `response.GeneralError` from
`internal/utils/response` is not in src/; the spec says all errors return a
consistent status/error JSON shape. -/
def GeneralError (msg : String) : Json :=
  .obj [("status", .str "Error"), ("error", .str msg)]

/-- Modelled from the spec: `response.ValidationError` from
`internal/utils/response` is not in src/; the spec says a validation error
enumerates which fields failed. -/
def ValidationError (fields : List String) : Json :=
  .obj [("status", .str "Error"),
        ("error", .str (String.intercalate ", "
          (fields.map (fun f => "field " ++ f ++ " is required"))))]

/-- An HTTP response as written by `response.WriteJson`: the status code
passed to `WriteHeader` and the JSON encoding of the payload. -/
structure Resp where
  status : Nat
  body : Json

/-- The decoded Student-shaped request body, before validation; mirrors the
name, email and age fields a `json.Decode` into `types.Student` fills in
(the id field is never read by the create/update handlers). -/
structure StudentIn where
  Name : String
  Email : String
  Age : Int
deriving DecidableEq, Repr

/-- The outcome of `json.NewDecoder(r.Body).Decode(&student)`: an empty body
(`io.EOF`), malformed JSON (any other decode error, carrying its message),
or a successfully decoded Student-shaped value. -/
inductive Body where
  | empty : Body
  | malformed (msg : String) : Body
  | valid (stu : StudentIn) : Body

/-- Modelled from the spec: the validation tags of `types.Student`
(`internal/types` is not in src/); the spec says name, email and age are
required fields and a validation error enumerates which fields failed, so a
field fails exactly when it holds its Go zero value. -/
def validateStudent (stu : StudentIn) : List String :=
  (if stu.Name = "" then ["Name"] else []) ++
  (if stu.Email = "" then ["Email"] else []) ++
  (if stu.Age = 0 then ["Age"] else [])

namespace Student

/-- `student.New` (the POST /api/students handler): decode the body
(empty body and malformed JSON are client errors), validate the required
fields, call `CreateStudent`, and answer 201 with the created id, or 500
with the store's error. -/
def New (s : StoreState) (body : Body) : Resp × StoreState :=
  match body with
  | .empty => (⟨400, GeneralError "empty body"⟩, s)
  | .malformed msg => (⟨400, GeneralError msg⟩, s)
  | .valid stu =>
    match validateStudent stu with
    | f :: fs => (⟨400, ValidationError (f :: fs)⟩, s)
    | [] =>
      match Sqlite.CreateStudent s stu.Name stu.Email stu.Age with
      | (.error e, s2) => (⟨500, GeneralError e.Error⟩, s2)
      | (.ok id, s2) => (⟨201, .obj [("id", .int id)]⟩, s2)

/-- `student.GetById` (the GET /api/students/id handler): an empty path id
or one `strconv.ParseInt` rejects is a 400 client error; otherwise the
store is queried and its error (including not-found) is answered as 500,
a found record as 200. -/
def GetById (s : StoreState) (pathId : String) : Resp × StoreState :=
  if pathId = "" then (⟨400, GeneralError "id is required"⟩, s)
  else
    match parseInt64 pathId with
    | none => (⟨400, GeneralError "invalid id format"⟩, s)
    | some id =>
      match Sqlite.GetStudentById s id with
      | (.error e, s2) => (⟨500, GeneralError e.Error⟩, s2)
      | (.ok stu, s2) => (⟨200, encodeStudent stu⟩, s2)

/-- `student.GetStudentList` (the GET /api/students handler): answer 200
with the slice returned by the store encoded as JSON, or 500 on a store
error. -/
def GetStudentList (s : StoreState) : Resp × StoreState :=
  match Sqlite.GetStudentList s with
  | (.error e, s2) => (⟨500, GeneralError e.Error⟩, s2)
  | (.ok slice, s2) => (⟨200, encodeStudentSlice slice⟩, s2)

/-- `student.UpdateStudent` (the PUT /api/students/id handler): the path id
is checked first (empty, then ParseInt), then the body is decoded and
validated, then the store is called; a store error is answered as 500, and
success as 200 with a status message. -/
def UpdateStudent (s : StoreState) (pathId : String) (body : Body) :
    Resp × StoreState :=
  if pathId = "" then (⟨400, GeneralError "id is required"⟩, s)
  else
    match parseInt64 pathId with
    | none => (⟨400, GeneralError "invalid id format"⟩, s)
    | some id =>
      match body with
      | .empty => (⟨400, GeneralError "empty body"⟩, s)
      | .malformed msg => (⟨400, GeneralError msg⟩, s)
      | .valid stu =>
        match validateStudent stu with
        | f :: fs => (⟨400, ValidationError (f :: fs)⟩, s)
        | [] =>
          match Sqlite.UpdateStudent s id stu.Name stu.Email stu.Age with
          | (.error e, s2) => (⟨500, GeneralError e.Error⟩, s2)
          | (.ok _, s2) =>
            (⟨200, .obj [("message", .str "student updated successfully")]⟩, s2)

/-- `student.DeleteStudent` (the DELETE /api/students/id handler): the path
id is checked (empty, then ParseInt), then the store is called; a store
error is answered as 500, and success as 200 with a status message. -/
def DeleteStudent (s : StoreState) (pathId : String) : Resp × StoreState :=
  if pathId = "" then (⟨400, GeneralError "id is required"⟩, s)
  else
    match parseInt64 pathId with
    | none => (⟨400, GeneralError "invalid id format"⟩, s)
    | some id =>
      match Sqlite.DeleteStudent s id with
      | (.error e, s2) => (⟨500, GeneralError e.Error⟩, s2)
      | (.ok _, s2) =>
        (⟨200, .obj [("message", .str "student deleted successfully")]⟩, s2)

end Student

/-- A well-formed store state: the next AUTOINCREMENT id is positive and
strictly larger than every id already in the table.  SQLite establishes
this for the `students` table (ids start at 1 and AUTOINCREMENT never
reissues an id). -/
def WF (s : StoreState) : Prop :=
  0 < s.nextId ∧ ∀ r ∈ s.rows, r.Id < s.nextId

/-- C1: email uniqueness is enforced by the store: in every state in which
some record already holds email e, `CreateStudent` with email e fails with
the UNIQUE-constraint write error and the stored records are unchanged. -/
theorem createStudent_duplicate_email_fails (s : StoreState) (n e : String)
    (a : Int) (h : ∃ r ∈ s.rows, r.Email = e) :
    Sqlite.CreateStudent s n e a = (.error (.uniqueConstraint e), s) := by
  simp only [Sqlite.CreateStudent, if_pos h]

/-- Witness for C1 at a concrete state holding email a@x.com. -/
theorem createStudent_duplicate_email_fails_witness :
    Sqlite.CreateStudent ⟨[⟨1, "Ada", "a@x.com", 20⟩], 2⟩ "Bob" "a@x.com" 21 =
      (.error (.uniqueConstraint "a@x.com"), ⟨[⟨1, "Ada", "a@x.com", 20⟩], 2⟩) :=
  createStudent_duplicate_email_fails _ _ _ _
    ⟨⟨1, "Ada", "a@x.com", 20⟩, List.mem_singleton_self _, rfl⟩

/-- C2: on every id with no matching record, `UpdateStudent` and
`DeleteStudent` (zero rows affected) return the not-found error and leave
the state unchanged; they never succeed silently on a missing id. -/
theorem update_delete_missing_id_notFound (s : StoreState) (id : Int)
    (n e : String) (a : Int) (h : ∀ r ∈ s.rows, r.Id ≠ id) :
    Sqlite.UpdateStudent s id n e a = (.error (.notFound id), s) ∧
    Sqlite.DeleteStudent s id = (.error (.notFound id), s) := by
  have h' : ¬ ∃ r ∈ s.rows, r.Id = id := by
    rintro ⟨r, hr, he⟩
    exact h r hr he
  exact ⟨by simp only [Sqlite.UpdateStudent, if_neg h'],
         by simp only [Sqlite.DeleteStudent, if_neg h']⟩

/-- Witness for C2: updating and deleting id 5 in a store that only holds
id 1 both fail with the not-found error. -/
theorem update_delete_missing_id_notFound_witness :
    Sqlite.UpdateStudent ⟨[⟨1, "Ada", "a@x.com", 20⟩], 2⟩ 5 "Bob" "b@x.com" 21 =
      (.error (.notFound 5), ⟨[⟨1, "Ada", "a@x.com", 20⟩], 2⟩) ∧
    Sqlite.DeleteStudent ⟨[⟨1, "Ada", "a@x.com", 20⟩], 2⟩ 5 =
      (.error (.notFound 5), ⟨[⟨1, "Ada", "a@x.com", 20⟩], 2⟩) :=
  update_delete_missing_id_notFound _ _ _ _ _ (by decide)

/-- C9: the read operations never modify the stored records: for every
state, `GetStudentById` and `GetStudentList` return the state exactly
unchanged. -/
theorem reads_preserve_state (s : StoreState) (id : Int) :
    (Sqlite.GetStudentById s id).2 = s ∧ (Sqlite.GetStudentList s).2 = s := by
  refine ⟨?_, rfl⟩
  unfold Sqlite.GetStudentById
  cases s.rows.find? (fun r => r.Id == id) <;> rfl

/-- C10: the update handler validates the path id before reading the body:
for every request whose non-empty id fails to parse, the response is the
invalid-id 400 error regardless of the body, and the state is unchanged
(so neither body decoding nor the store ran). -/
theorem update_id_checked_before_body (s : StoreState) (idStr : String)
    (body : Body) (h0 : idStr ≠ "") (hp : parseInt64 idStr = none) :
    Student.UpdateStudent s idStr body =
      (⟨400, GeneralError "invalid id format"⟩, s) := by
  unfold Student.UpdateStudent
  rw [if_neg h0, hp]

/-- Witness for C10: a non-numeric id with a body that would itself fail
validation still draws the invalid-id error. -/
theorem update_id_checked_before_body_witness :
    Student.UpdateStudent ⟨[], 1⟩ "xy" (.valid ⟨"", "", 0⟩) =
      (⟨400, GeneralError "invalid id format"⟩, ⟨[], 1⟩) :=
  update_id_checked_before_body _ _ _ (by decide) rfl

/-- C3: round-trip: from every well-formed state, creating a student with a
non-empty name, a non-empty email held by no existing record, and any age
returns a positive id, and `GetStudentById` on that id then returns a
record with exactly that id, name, email and age. -/
theorem create_then_getById_roundtrip (s : StoreState) (n e : String)
    (a : Int) (hwf : WF s) (hn : n ≠ "") (he : e ≠ "")
    (hu : ∀ r ∈ s.rows, r.Email ≠ e) :
    ∃ id s2, Sqlite.CreateStudent s n e a = (.ok id, s2) ∧ 0 < id ∧
      Sqlite.GetStudentById s2 id = (.ok ⟨id, n, e, a⟩, s2) := by
  have hc : ¬ ∃ r ∈ s.rows, r.Email = e := by
    rintro ⟨r, hr, h⟩
    exact hu r hr h
  refine ⟨s.nextId, ⟨s.rows ++ [⟨s.nextId, n, e, a⟩], s.nextId + 1⟩, ?_,
    hwf.1, ?_⟩
  · simp only [Sqlite.CreateStudent, if_neg hc]
  · have hfind : (s.rows ++ [(⟨s.nextId, n, e, a⟩ : Student)]).find?
        (fun r => r.Id == s.nextId) = some ⟨s.nextId, n, e, a⟩ := by
      rw [List.find?_append]
      have h1 : s.rows.find? (fun r => r.Id == s.nextId) = none := by
        rw [List.find?_eq_none]
        intro r hr
        simp only [beq_iff_eq]
        exact Int.ne_of_lt (hwf.2 r hr)
      rw [h1, Option.none_or]
      exact List.find?_cons_of_pos _ (by simp)
    simp only [Sqlite.GetStudentById, hfind]

/-- Witness for C3 at the empty well-formed store. -/
theorem create_then_getById_roundtrip_witness :
    ∃ id s2, Sqlite.CreateStudent ⟨[], 1⟩ "Ada" "a@x.com" 20 = (.ok id, s2) ∧
      0 < id ∧
      Sqlite.GetStudentById s2 id = (.ok ⟨id, "Ada", "a@x.com", 20⟩, s2) :=
  create_then_getById_roundtrip ⟨[], 1⟩ "Ada" "a@x.com" 20
    ⟨by norm_num, by simp⟩ (by decide) (by decide) (by simp)

/-- C4 counterexample: the claim says an id that is not a positive integer
never reaches the Store, but the path id "-1" parses under
`strconv.ParseInt(id, 10, 64)` and reaches the Store: the response is the
server-tier 500 carrying the Store's own not-found error message, not a
client error. -/
theorem getById_negative_id_reaches_store :
    parseInt64 "-1" = some (-1) ∧
    Student.GetById ⟨[], 1⟩ "-1" =
      (⟨500, GeneralError "no student found with id -1"⟩, ⟨[], 1⟩) :=
  ⟨rfl, rfl⟩

/-- C4 amended: every handler that takes a path id parses it with
`strconv.ParseInt(id, 10, 64)` as a signed 64-bit integer; for every id
string that fails to parse (every non-numeric id) the response is a 400
client error and the state is unchanged, so such an id never reaches the
Store. -/
theorem unparseable_id_rejected_400 (s : StoreState) (idStr : String)
    (body : Body) (hp : parseInt64 idStr = none) :
    (Student.GetById s idStr).1.status = 400 ∧
    (Student.GetById s idStr).2 = s ∧
    (Student.UpdateStudent s idStr body).1.status = 400 ∧
    (Student.UpdateStudent s idStr body).2 = s ∧
    (Student.DeleteStudent s idStr).1.status = 400 ∧
    (Student.DeleteStudent s idStr).2 = s := by
  by_cases h0 : idStr = ""
  · subst h0
    exact ⟨rfl, rfl, rfl, rfl, rfl, rfl⟩
  · unfold Student.GetById Student.UpdateStudent Student.DeleteStudent
    simp only [if_neg h0, hp]
    refine ⟨?_, ?_, ?_, ?_, ?_, ?_⟩ <;> trivial

/-- Witness for the amended C4 at the non-numeric id "abc". -/
theorem unparseable_id_rejected_400_witness :
    (Student.GetById ⟨[], 1⟩ "abc").1.status = 400 ∧
    (Student.GetById ⟨[], 1⟩ "abc").2 = (⟨[], 1⟩ : StoreState) ∧
    (Student.UpdateStudent ⟨[], 1⟩ "abc" .empty).1.status = 400 ∧
    (Student.UpdateStudent ⟨[], 1⟩ "abc" .empty).2 = (⟨[], 1⟩ : StoreState) ∧
    (Student.DeleteStudent ⟨[], 1⟩ "abc").1.status = 400 ∧
    (Student.DeleteStudent ⟨[], 1⟩ "abc").2 = (⟨[], 1⟩ : StoreState) :=
  unparseable_id_rejected_400 ⟨[], 1⟩ "abc" .empty rfl

/-- C5 counterexample: with no records the list handler answers 200, but
the body is the JSON encoding of the nil slice — JSON null — not an empty
JSON list. -/
theorem list_empty_store_encodes_null :
    Student.GetStudentList ⟨[], 1⟩ = (⟨200, Json.null⟩, ⟨[], 1⟩) ∧
    Json.null ≠ Json.arr [] :=
  ⟨rfl, fun h => Json.noConfusion h⟩

/-- C5 amended: when no records exist the store's list operation succeeds
(no error) with the nil slice — an empty sequence — and the handler
answers 200 with that nil slice encoded as JSON null rather than as an
empty JSON list. -/
theorem list_empty_store_ok_with_null (s : StoreState) (h : s.rows = []) :
    Sqlite.GetStudentList s = (.ok none, s) ∧
    Student.GetStudentList s = (⟨200, Json.null⟩, s) := by
  obtain ⟨rows, nid⟩ := s
  have h' : rows = [] := h
  subst h'
  exact ⟨rfl, rfl⟩

/-- Witness for the amended C5 at the empty store. -/
theorem list_empty_store_ok_with_null_witness :
    Sqlite.GetStudentList ⟨[], 1⟩ = (.ok none, (⟨[], 1⟩ : StoreState)) ∧
    Student.GetStudentList ⟨[], 1⟩ = (⟨200, Json.null⟩, (⟨[], 1⟩ : StoreState)) :=
  list_empty_store_ok_with_null ⟨[], 1⟩ rfl

/-- C6: for every path id that parses but matches no record, the get-by-id,
update (with a body that decodes and validates) and delete handlers answer
the Store's not-found error as a 500 server-tier response in the
status/error shape built by `GeneralError`, never as a success. -/
theorem handlers_surface_notFound_as_500 (s : StoreState) (idStr : String)
    (id : Int) (stu : StudentIn) (hp : parseInt64 idStr = some id)
    (hm : ∀ r ∈ s.rows, r.Id ≠ id) (hv : validateStudent stu = []) :
    Student.GetById s idStr =
      (⟨500, GeneralError (StoreErr.notFound id).Error⟩, s) ∧
    Student.UpdateStudent s idStr (.valid stu) =
      (⟨500, GeneralError (StoreErr.notFound id).Error⟩, s) ∧
    Student.DeleteStudent s idStr =
      (⟨500, GeneralError (StoreErr.notFound id).Error⟩, s) := by
  have h0 : idStr ≠ "" := by
    rintro rfl
    rw [show parseInt64 "" = none from rfl] at hp
    exact Option.noConfusion hp
  have hne : ¬ ∃ r ∈ s.rows, r.Id = id := by
    rintro ⟨r, hr, h⟩
    exact hm r hr h
  have hfind : s.rows.find? (fun r => r.Id == id) = none := by
    rw [List.find?_eq_none]
    intro r hr
    simpa using hm r hr
  refine ⟨?_, ?_, ?_⟩
  · unfold Student.GetById Sqlite.GetStudentById
    rw [if_neg h0]
    simp only [hp, hfind]
  · unfold Student.UpdateStudent
    rw [if_neg h0]
    simp only [hp, hv]
    unfold Sqlite.UpdateStudent
    rw [if_neg hne]
  · unfold Student.DeleteStudent
    rw [if_neg h0]
    simp only [hp]
    unfold Sqlite.DeleteStudent
    rw [if_neg hne]

/-- Witness for C6: id 7 parses but is absent from the empty store, and all
three handlers answer 500 with the store's not-found message. -/
theorem handlers_surface_notFound_as_500_witness :
    Student.GetById ⟨[], 1⟩ "7" =
      (⟨500, GeneralError (StoreErr.notFound 7).Error⟩, (⟨[], 1⟩ : StoreState)) ∧
    Student.UpdateStudent ⟨[], 1⟩ "7" (.valid ⟨"Ada", "a@x.com", 20⟩) =
      (⟨500, GeneralError (StoreErr.notFound 7).Error⟩, (⟨[], 1⟩ : StoreState)) ∧
    Student.DeleteStudent ⟨[], 1⟩ "7" =
      (⟨500, GeneralError (StoreErr.notFound 7).Error⟩, (⟨[], 1⟩ : StoreState)) :=
  handlers_surface_notFound_as_500 ⟨[], 1⟩ "7" 7 ⟨"Ada", "a@x.com", 20⟩
    rfl (by simp) rfl

/-- C7: on every successful operation the handler answers the matching
success status code and JSON result: 201 with the created id for create,
200 with the fetched record for get-by-id, 200 for list, and 200 with the
status message for update and delete. -/
theorem success_status_codes (s : StoreState) (stuIn : StudentIn)
    (idStr : String) (id : Int) (stu : Student)
    (hv : validateStudent stuIn = [])
    (hc : ∀ r ∈ s.rows, r.Email ≠ stuIn.Email)
    (hp : parseInt64 idStr = some id)
    (hf : s.rows.find? (fun r => r.Id == id) = some stu)
    (hex : ∃ r ∈ s.rows, r.Id = id)
    (hue : ∀ r ∈ s.rows, r.Id ≠ id → r.Email ≠ stuIn.Email) :
    (Student.New s (.valid stuIn)).1 =
      ⟨201, .obj [("id", .int s.nextId)]⟩ ∧
    (Student.GetById s idStr).1 = ⟨200, encodeStudent stu⟩ ∧
    (Student.GetStudentList s).1.status = 200 ∧
    (Student.UpdateStudent s idStr (.valid stuIn)).1 =
      ⟨200, .obj [("message", .str "student updated successfully")]⟩ ∧
    (Student.DeleteStudent s idStr).1 =
      ⟨200, .obj [("message", .str "student deleted successfully")]⟩ := by
  have h0 : idStr ≠ "" := by
    rintro rfl
    rw [show parseInt64 "" = none from rfl] at hp
    exact Option.noConfusion hp
  have hc' : ¬ ∃ r ∈ s.rows, r.Email = stuIn.Email := by
    rintro ⟨r, hr, h⟩
    exact hc r hr h
  have hue' : ¬ ∃ r ∈ s.rows, r.Id ≠ id ∧ r.Email = stuIn.Email := by
    rintro ⟨r, hr, h1, h2⟩
    exact hue r hr h1 h2
  refine ⟨?_, ?_, rfl, ?_, ?_⟩
  · unfold Student.New
    simp only [hv]
    unfold Sqlite.CreateStudent
    rw [if_neg hc']
  · unfold Student.GetById Sqlite.GetStudentById
    rw [if_neg h0]
    simp only [hp, hf]
  · unfold Student.UpdateStudent
    rw [if_neg h0]
    simp only [hp, hv]
    unfold Sqlite.UpdateStudent
    rw [if_pos hex, if_neg hue']
  · unfold Student.DeleteStudent
    rw [if_neg h0]
    simp only [hp]
    unfold Sqlite.DeleteStudent
    rw [if_pos hex]

/-- Witness for C7: a store holding id 7, a fresh student to create, and
id 7 as the path id for the read, update and delete operations. -/
theorem success_status_codes_witness :
    (Student.New ⟨[⟨7, "Ada", "a@x.com", 20⟩], 8⟩
      (.valid ⟨"Bob", "b@x.com", 21⟩)).1 =
        ⟨201, .obj [("id", .int 8)]⟩ ∧
    (Student.GetById ⟨[⟨7, "Ada", "a@x.com", 20⟩], 8⟩ "7").1 =
      ⟨200, encodeStudent ⟨7, "Ada", "a@x.com", 20⟩⟩ ∧
    (Student.GetStudentList ⟨[⟨7, "Ada", "a@x.com", 20⟩], 8⟩).1.status = 200 ∧
    (Student.UpdateStudent ⟨[⟨7, "Ada", "a@x.com", 20⟩], 8⟩ "7"
      (.valid ⟨"Bob", "b@x.com", 21⟩)).1 =
        ⟨200, .obj [("message", .str "student updated successfully")]⟩ ∧
    (Student.DeleteStudent ⟨[⟨7, "Ada", "a@x.com", 20⟩], 8⟩ "7").1 =
      ⟨200, .obj [("message", .str "student deleted successfully")]⟩ :=
  success_status_codes ⟨[⟨7, "Ada", "a@x.com", 20⟩], 8⟩
    ⟨"Bob", "b@x.com", 21⟩ "7" 7 ⟨7, "Ada", "a@x.com", 20⟩
    rfl (by decide) rfl rfl
    ⟨⟨7, "Ada", "a@x.com", 20⟩, List.mem_singleton_self _, rfl⟩ (by decide)

/-- C8: a create or update request whose body is empty or malformed JSON is
answered 400 and leaves the state unchanged, so the store is never
invoked. -/
theorem bad_body_rejected_400 (s : StoreState) (idStr : String)
    (body : Body) (msg : String)
    (h : body = Body.empty ∨ body = Body.malformed msg) :
    (Student.New s body).1.status = 400 ∧ (Student.New s body).2 = s ∧
    (Student.UpdateStudent s idStr body).1.status = 400 ∧
    (Student.UpdateStudent s idStr body).2 = s := by
  have hu : (Student.UpdateStudent s idStr body).1.status = 400 ∧
      (Student.UpdateStudent s idStr body).2 = s := by
    unfold Student.UpdateStudent
    by_cases h0 : idStr = ""
    · simp [if_pos h0]
    · simp only [if_neg h0]
      cases hp : parseInt64 idStr <;>
        obtain rfl | rfl := h <;> simp [hp]
  have hn : (Student.New s body).1.status = 400 ∧
      (Student.New s body).2 = s := by
    obtain rfl | rfl := h <;> exact ⟨rfl, rfl⟩
  exact ⟨hn.1, hn.2, hu.1, hu.2⟩

/-- Witness for C8: an empty body on a parseable id. -/
theorem bad_body_rejected_400_witness :
    (Student.New ⟨[], 1⟩ .empty).1.status = 400 ∧
    (Student.New ⟨[], 1⟩ .empty).2 = (⟨[], 1⟩ : StoreState) ∧
    (Student.UpdateStudent ⟨[], 1⟩ "1" .empty).1.status = 400 ∧
    (Student.UpdateStudent ⟨[], 1⟩ "1" .empty).2 = (⟨[], 1⟩ : StoreState) :=
  bad_body_rejected_400 ⟨[], 1⟩ "1" .empty "x" (Or.inl rfl)
